import Mathlib

/-!
Verification of the wallet-authentication subsystem of the eduvi
repository against its natural-language specification.

The server side (`supabase/functions/wallet-auth/index.ts`, the `verify`
action) is embedded as pure functions over an explicit database state;
the fallible external collaborators (signature recovery via
`ethers.verifyMessage`, the storage layer, the identity provider) are
modelled through an environment record whose flags select the outcome of
each external call, exactly as the handler observes them.  The client
side (`src/contexts/AuthContext.tsx`) is embedded as transition functions
on an explicit client-state record.
-/

deriving instance DecidableEq for Except

namespace WalletAuth

/-- The fixed sign-in message (`SIGN_MESSAGE` in
`supabase/functions/wallet-auth/index.ts`, identical to
`WALLET_SIGN_MESSAGE` in `src/lib/walletAuth.ts`). -/
def SIGN_MESSAGE : String :=
  "EduVerify login: Sign this message to verify wallet ownership"

/-- The single user-facing error string (`FRIENDLY_VERIFY_ERROR`). -/
def FRIENDLY_VERIFY_ERROR : String :=
  "Wallet verification failed. Please reconnect your wallet and try again."

/-- ASCII lower-casing of a string, the behaviour of JavaScript
`String.prototype.toLowerCase` on the ASCII inputs this subsystem
handles (hex addresses). -/
def toLowerCase (s : String) : String :=
  ⟨s.data.map Char.toLower⟩

/-- Is `c` a hexadecimal digit (`[a-fA-F0-9]`)? -/
def isHexChar (c : Char) : Bool :=
  c.isDigit || ('a' ≤ c && c ≤ 'f') || ('A' ≤ c && c ≤ 'F')

/-- `isValidAddress` from `wallet-auth/index.ts`: the regular expression
`^0x[a-fA-F0-9]{40}$`. -/
def isValidAddress (address : String) : Bool :=
  address.data.length = 42 &&
  address.data.take 2 = ['0', 'x'] &&
  (address.data.drop 2).all isHexChar

/-- A row of the `profiles` table, as read and written by the handler
and by `AuthContext.tsx` (`user_id` is null until the profile is linked
to an auth user). -/
structure Profile where
  id : Nat
  user_id : Option Nat
  wallet_address : String
  role : String
  onboarded : Bool
deriving DecidableEq

/-- An identity-provider auth user: id, email, and the wallet address
stored in `user_metadata`. -/
structure AuthUser where
  id : Nat
  email : Option String
  wallet_address : String
deriving DecidableEq

/-- A row of the `user_roles` table. -/
structure UserRole where
  user_id : Nat
  role : String
deriving DecidableEq

/-- The storage state the `verify` action reads and writes: the
`profiles` and `user_roles` tables and the provider's auth users,
together with the fresh ids the next inserts will receive. -/
structure DB where
  profiles : List Profile
  users : List AuthUser
  user_roles : List UserRole
  nextProfileId : Nat
  nextUserId : Nat
deriving DecidableEq

/-- Outcomes of the external calls the handler makes, as the handler
observes them: the result of `ethers.verifyMessage` (`none` models a
thrown recovery error), and for each storage/provider call a flag that
is `true` exactly when that call reports an error to the handler. -/
structure Env where
  recover : String → String → Option String
  profileLookupFails : Bool
  getUserFails : Bool
  createUserFails : Bool
  roleLookupFails : Bool
  roleInsertFails : Bool
  linkGenFails : Bool
  tokenHash : String
  actionLink : String

/-- The JSON body of a `verify` request (`VerifyRequest` in
`wallet-auth/index.ts`); a missing field arrives as the empty string,
matching the handler's JavaScript falsiness checks. -/
structure VerifyRequest where
  wallet_address : String
  signature : String
  message : String
deriving DecidableEq

/-- The observable response of the `verify` action: an error response
with its HTTP status and error string, or the 200 success body. -/
inductive VerifyResult where
  | err (status : Nat) (msg : String)
  | ok (id : Nat) (email : String) (wallet_address : String)
       (token_hash : String) (verification_url : String)
deriving DecidableEq

/-- Did `verify` answer 200 with `success: true`? -/
def VerifyResult.isSuccess : VerifyResult → Bool
  | .ok .. => true
  | .err .. => false

/-- The HTTP status of a response (200 on the success path). -/
def VerifyResult.statusOf : VerifyResult → Nat
  | .err s _ => s
  | .ok .. => 200

/-- The error string of a response, when it is an error response. -/
def VerifyResult.errMsg : VerifyResult → Option String
  | .err _ m => some m
  | .ok .. => none

/-- The `wallet_address` field of the returned user object, when the
response is the success body. -/
def VerifyResult.userWallet : VerifyResult → Option String
  | .ok _ _ w _ _ => some w
  | .err .. => none

/-- The deterministic email identity derived for a wallet
(`` `${normalizedAddress}@wallet.eduverify.local` ``). -/
def deriveEmail (normalizedAddress : String) : String :=
  normalizedAddress ++ "@wallet.eduverify.local"

/-- The profile lookup
`from('profiles').select(...).eq('wallet_address', a).maybeSingle()`:
the profile row whose `wallet_address` equals `a`, if any. -/
def findProfile (db : DB) (a : String) : Option Profile :=
  db.profiles.find? (fun p => p.wallet_address == a)

/-- The provider call `auth.admin.getUserById`. -/
def findUser (db : DB) (uid : Nat) : Option AuthUser :=
  db.users.find? (fun u => u.id == uid)

/-- The role lookup
`from('user_roles').select('id').eq('user_id', uid).eq('role', r)`. -/
def hasRoleRow (db : DB) (uid : Nat) (r : String) : Bool :=
  db.user_roles.any (fun ur => ur.user_id == uid && ur.role == r)

/-- Effect of `auth.admin.createUser` on the provider's users: a new
auth user with the derived email and the wallet address in metadata. -/
def createUserDB (db : DB) (normalizedAddress email : String) : DB :=
  { db with
      users := db.users ++ [⟨db.nextUserId, some email, normalizedAddress⟩],
      nextUserId := db.nextUserId + 1 }

/-- Effect of the `profiles` write at lines 167–178: update the
pre-existing unlinked profile in place to attach `user_id`, or insert a
fresh profile row with `role = 'student'` (and the schema default
`onboarded = false`). -/
def linkOrInsertProfileDB (db1 : DB) (uid : Nat) (normalizedAddress : String) :
    Option Profile → DB
  | some p =>
    { db1 with
        profiles := db1.profiles.map
          (fun q => if q.id = p.id then { q with user_id := some uid } else q) }
  | none =>
    { db1 with
        profiles := db1.profiles ++
          [⟨db1.nextProfileId, some uid, normalizedAddress, "student", false⟩],
        nextProfileId := db1.nextProfileId + 1 }

/-- Effect of the role-ensuring block at lines 180–197: when the role
lookup errors, the error is only logged and nothing is written; when a
`(uid, 'student')` row exists nothing is written; when the insert errors
the error is only logged; otherwise the row is inserted. -/
def ensureRoleDB (env : Env) (db2 : DB) (uid : Nat) : DB :=
  if env.roleLookupFails then db2
  else if hasRoleRow db2 uid "student" then db2
  else if env.roleInsertFails then db2
  else { db2 with user_roles := db2.user_roles ++ [⟨uid, "student"⟩] }

/-- The provisioning branch of the `verify` action (lines 146–198 of
`wallet-auth/index.ts`): create a new auth user; on provider error
answer 500 `Failed to create user account`; otherwise link or insert the
profile and ensure the default role, never failing the request on a role
error. -/
def provision (env : Env) (db : DB) (normalizedAddress email : String)
    (existingProfile : Option Profile) :
    Except (Nat × String) (Nat × String × DB) :=
  if env.createUserFails then
    .error (500, "Failed to create user account")
  else
    .ok (db.nextUserId, email,
      ensureRoleDB env
        (linkOrInsertProfileDB (createUserDB db normalizedAddress email)
          db.nextUserId normalizedAddress existingProfile)
        db.nextUserId)

/-- The identity-resolution slice of the `verify` action (lines 112–198
of `wallet-auth/index.ts`): look the profile up by normalized wallet
address (500 `Failed to verify wallet` on lookup error); if a linked
profile exists, fetch its auth user (500 `Failed to verify wallet` on
error) and return it without mutating anything; otherwise provision. -/
def resolveIdentity (env : Env) (db : DB) (normalizedAddress : String) :
    Except (Nat × String) (Nat × String × DB) :=
  if env.profileLookupFails then
    .error (500, "Failed to verify wallet")
  else
    match findProfile db normalizedAddress with
    | some p =>
      match p.user_id with
      | some uid =>
        if env.getUserFails then
          .error (500, "Failed to verify wallet")
        else
          match findUser db uid with
          | none => .error (500, "Failed to verify wallet")
          | some u => .ok (uid, u.email.getD (deriveEmail normalizedAddress), db)
      | none => provision env db normalizedAddress (deriveEmail normalizedAddress) (some p)
    | none => provision env db normalizedAddress (deriveEmail normalizedAddress) none

/-- The `verify` action of `wallet-auth/index.ts` (lines 72–227):
field/format validation (400), byte-identical message check (401),
signature recovery and address comparison (401), identity resolution,
magic-link generation (500 `Failed to create session` on error), and the
200 success body. -/
def verify (env : Env) (db : DB) (req : VerifyRequest) : VerifyResult × DB :=
  if req.wallet_address = "" ∨ isValidAddress req.wallet_address = false ∨
     req.signature = "" ∨ req.message = "" then
    (.err 400 FRIENDLY_VERIFY_ERROR, db)
  else if req.message = SIGN_MESSAGE then
    match env.recover req.message req.signature with
    | none => (.err 401 FRIENDLY_VERIFY_ERROR, db)
    | some recovered =>
      if toLowerCase recovered = toLowerCase req.wallet_address then
        match resolveIdentity env db (toLowerCase req.wallet_address) with
        | .error (s, m) => (.err s m, db)
        | .ok (uid, userEmail, db2) =>
          if env.linkGenFails then
            (.err 500 "Failed to create session", db2)
          else
            (.ok uid userEmail (toLowerCase req.wallet_address)
               env.tokenHash env.actionLink, db2)
      else
        (.err 401 FRIENDLY_VERIFY_ERROR, db)
  else
    (.err 401 FRIENDLY_VERIFY_ERROR, db)

end WalletAuth

namespace AuthClient

open WalletAuth

/-- The locally cached `Profile` of `AuthContext.tsx`. -/
structure LocalProfile where
  id : Nat
  wallet_address : String
  role : String
  display_name : Option String
  institution : Option String
  onboarded : Bool
deriving DecidableEq

/-- The React state held by `AuthProvider` in `AuthContext.tsx`:
`user`/`session`/`profile`/`roles` plus the loading and error fields. -/
structure ClientState where
  user : Option Nat
  session : Bool
  profile : Option LocalProfile
  roles : List String
  isLoading : Bool
  error : Option String
deriving DecidableEq

/-- `signOut` from `AuthContext.tsx` (lines 122–136): set `isLoading`,
await the provider's `supabase.auth.signOut()`, then clear
user/session/profile/roles/error; a thrown provider error is caught and
only logged, skipping the clearing statements; `finally` resets
`isLoading`.  `providerThrows` is `true` when the provider call rejects. -/
def signOut (providerThrows : Bool) (st : ClientState) : ClientState :=
  let st1 := { st with isLoading := true }
  if providerThrows then
    { st1 with isLoading := false }
  else
    { st1 with
        user := none, session := false, profile := none, roles := [],
        error := none, isLoading := false }

/-- The server-side effect of
`from('profiles').update({onboarded: true}).eq('user_id', uid)`. -/
def updateOnboarded (db : DB) (uid : Nat) : DB :=
  { db with
      profiles := db.profiles.map
        (fun p => if p.user_id = some uid then { p with onboarded := true } else p) }

/-- `onboardingComplete` from `AuthContext.tsx` (lines 151–169): throws
`No authenticated user` when no user is set; otherwise updates
`onboarded = true` server-side for the current user (rethrowing a
storage error, modelled by `updateFails`) and then optimistically marks
the locally cached profile, when one is present, as onboarded. -/
def onboardingComplete (updateFails : Bool) (st : ClientState) (db : DB) :
    Except String (ClientState × DB) :=
  match st.user with
  | none => .error "No authenticated user"
  | some uid =>
    if updateFails then
      .error "profiles update failed"
    else
      let db2 := updateOnboarded db uid
      let st2 :=
        match st.profile with
        | some pr => { st with profile := some { pr with onboarded := true } }
        | none => st
      .ok (st2, db2)

end AuthClient

namespace WalletAuth

/-- The empty string is not a valid address. -/
theorem isValidAddress_empty : isValidAddress "" = false := by decide

/-- The fixed sign-in message is nonempty. -/
theorem sign_message_ne_empty : SIGN_MESSAGE ≠ "" := by decide

/-- A well-formed `verify` request: valid address format, nonempty
signature and nonempty message.  These are exactly the submissions that
pass the handler's field/format check at line 75. -/
def wellFormed (req : VerifyRequest) : Prop :=
  isValidAddress req.wallet_address = true ∧ req.signature ≠ "" ∧ req.message ≠ ""

/-- A well-formed request does not take the 400 branch. -/
theorem wellFormed_not_400 (req : VerifyRequest) (h : wellFormed req) :
    ¬(req.wallet_address = "" ∨ isValidAddress req.wallet_address = false ∨
      req.signature = "" ∨ req.message = "") := by
  obtain ⟨hval, hsig, hmsg⟩ := h
  push_neg
  refine ⟨?_, ?_, hsig, hmsg⟩
  · intro hwa
    rw [hwa, isValidAddress_empty] at hval
    exact absurd hval (by decide)
  · rw [hval]
    decide

/-- Claim C3: a well-formed submission whose message differs from the
fixed constant in any way is rejected with HTTP 401 and the friendly
error string, and the database is untouched: no identity is resolved or
created. -/
theorem c3_message_mismatch_rejected (env : Env) (db : DB) (req : VerifyRequest)
    (hwf : wellFormed req) (hne : req.message ≠ SIGN_MESSAGE) :
    verify env db req = (.err 401 FRIENDLY_VERIFY_ERROR, db) := by
  unfold verify
  rw [if_neg (wellFormed_not_400 req hwf), if_neg hne]

/-- Witness for C3: a request whose message carries one extra trailing
space is answered 401 with the friendly string and leaves the database
unchanged. -/
theorem c3_message_mismatch_rejected_witness :
    verify ⟨fun _ _ => none, false, false, false, false, false, false, "t", "u"⟩
      ⟨[], [], [], 0, 0⟩
      ⟨"0xaaaaaaaaaaaaaaaaaaaaaaaaaaaaaaaaaaaaaaaa", "0xsig",
        "EduVerify login: Sign this message to verify wallet ownership "⟩ =
      (.err 401 FRIENDLY_VERIFY_ERROR, ⟨[], [], [], 0, 0⟩) :=
  c3_message_mismatch_rejected _ _ _ ⟨by decide, by decide, by decide⟩ (by decide)

/-- Claim C4: for a well-formed submission with the correct fixed
message, if recovery errors (malformed signature) or the recovered
address differs from the submitted one after lower-casing, `verify`
answers 401 with the friendly string and the database is untouched. -/
theorem c4_recovery_mismatch_rejected (env : Env) (db : DB) (req : VerifyRequest)
    (hwf : wellFormed req) (hmsg : req.message = SIGN_MESSAGE)
    (hbad : ∀ r, env.recover req.message req.signature = some r →
      toLowerCase r ≠ toLowerCase req.wallet_address) :
    verify env db req = (.err 401 FRIENDLY_VERIFY_ERROR, db) := by
  unfold verify
  rw [if_neg (wellFormed_not_400 req hwf), if_pos hmsg]
  cases hr : env.recover req.message req.signature with
  | none => rfl
  | some r => simp [hbad r hr]

/-- `ensureRoleDB` touches only `user_roles`. -/
theorem ensureRoleDB_profiles (env : Env) (d : DB) (uid : Nat) :
    (ensureRoleDB env d uid).profiles = d.profiles := by
  unfold ensureRoleDB
  split
  · rfl
  split
  · rfl
  split <;> rfl

/-- `ensureRoleDB` touches only `user_roles`. -/
theorem ensureRoleDB_users (env : Env) (d : DB) (uid : Nat) :
    (ensureRoleDB env d uid).users = d.users := by
  unfold ensureRoleDB
  split
  · rfl
  split
  · rfl
  split <;> rfl

/-- When the role lookup or the role insert fails, `ensureRoleDB`
writes nothing. -/
theorem ensureRoleDB_user_roles_of_fail (env : Env) (d : DB) (uid : Nat)
    (h : env.roleLookupFails = true ∨ env.roleInsertFails = true) :
    (ensureRoleDB env d uid).user_roles = d.user_roles := by
  unfold ensureRoleDB
  cases h1 : env.roleLookupFails <;> cases h2 : hasRoleRow d uid "student" <;>
    cases h3 : env.roleInsertFails <;> simp_all

/-- `linkOrInsertProfileDB` touches neither `users` nor `nextUserId`. -/
theorem linkOrInsertProfileDB_users (d : DB) (uid : Nat) (a : String)
    (ep : Option Profile) : (linkOrInsertProfileDB d uid a ep).users = d.users := by
  cases ep <;> rfl

/-- `linkOrInsertProfileDB` touches neither `users` nor `user_roles`. -/
theorem linkOrInsertProfileDB_user_roles (d : DB) (uid : Nat) (a : String)
    (ep : Option Profile) :
    (linkOrInsertProfileDB d uid a ep).user_roles = d.user_roles := by
  cases ep <;> rfl

/-- Helper: Case A of identity resolution (lines 132–144): a profile
already linked to an auth user is fetched and returned, the user's email
is used, and the database is returned unchanged. -/
theorem resolveIdentity_caseA (env : Env) (db : DB) (a : String) (p : Profile)
    (uid : Nat) (u : AuthUser)
    (hpl : env.profileLookupFails = false) (hgu : env.getUserFails = false)
    (hp : findProfile db a = some p) (hlink : p.user_id = some uid)
    (hu : findUser db uid = some u) :
    resolveIdentity env db a = .ok (uid, u.email.getD (deriveEmail a), db) := by
  unfold resolveIdentity
  rw [if_neg (by rw [hpl]; decide), hp]
  simp only []
  rw [hlink]
  simp only []
  rw [if_neg (by rw [hgu]; decide), hu]

/-- `createUserDB` touches only `users` and `nextUserId`. -/
theorem createUserDB_user_roles (db : DB) (a em : String) :
    (createUserDB db a em).user_roles = db.user_roles := rfl

/-- Claim C6: when a profile row exists for the address and already has
a linked `user_id` (Case A), identity resolution fetches and returns
that auth user and performs no mutation at all: the database after the
call is the database before it. -/
theorem c6_case_a_is_pure (env : Env) (db : DB) (a : String) (p : Profile)
    (uid : Nat) (u : AuthUser)
    (hpl : env.profileLookupFails = false) (hgu : env.getUserFails = false)
    (hp : findProfile db a = some p) (hlink : p.user_id = some uid)
    (hu : findUser db uid = some u) :
    resolveIdentity env db a = .ok (uid, u.email.getD (deriveEmail a), db) :=
  resolveIdentity_caseA env db a p uid u hpl hgu hp hlink hu

/-- Witness for C6: a database with one linked profile and its auth
user; resolution returns that user and the identical database. -/
theorem c6_case_a_is_pure_witness :
    resolveIdentity
      ⟨fun _ _ => none, false, false, false, false, false, false, "t", "u"⟩
      ⟨[⟨1, some 5, "0xab", "student", true⟩],
       [⟨5, some "0xab@wallet.eduverify.local", "0xab"⟩],
       [⟨5, "student"⟩], 2, 6⟩ "0xab" =
      .ok (5, "0xab@wallet.eduverify.local",
        ⟨[⟨1, some 5, "0xab", "student", true⟩],
         [⟨5, some "0xab@wallet.eduverify.local", "0xab"⟩],
         [⟨5, "student"⟩], 2, 6⟩) :=
  c6_case_a_is_pure _ _ _ ⟨1, some 5, "0xab", "student", true⟩ 5
    ⟨5, some "0xab@wallet.eduverify.local", "0xab"⟩
    rfl rfl (by decide) rfl (by decide)

/-- Claim C2 (code behaviour): when the profile lookup finds no row for
a brand-new address and the provider's `createUser` call reports an
error — exactly what the losing request of a concurrent race observes
when the uniqueness constraint fires — `verify` answers 500 `Failed to
create user account`.  The loser does not catch the violation and does
not re-resolve via Case A. -/
theorem c2_losing_creation_errors_request (env : Env) (db : DB)
    (req : VerifyRequest) (r : String)
    (hwf : wellFormed req) (hmsg : req.message = SIGN_MESSAGE)
    (hrec : env.recover req.message req.signature = some r)
    (hmat : toLowerCase r = toLowerCase req.wallet_address)
    (hpl : env.profileLookupFails = false)
    (hnop : findProfile db (toLowerCase req.wallet_address) = none)
    (hcu : env.createUserFails = true) :
    verify env db req = (.err 500 "Failed to create user account", db) := by
  unfold verify
  rw [if_neg (wellFormed_not_400 req hwf), if_pos hmsg, hrec]
  simp [hmat, resolveIdentity, hpl, hnop, provision, hcu]

/-- Witness for C2: a concrete losing request: empty database, valid
address, matching recovery, `createUser` reporting the uniqueness
violation; the whole request errors with 500. -/
theorem c2_losing_creation_errors_request_witness :
    verify
      ⟨fun _ _ => some "0xaaaaaaaaaaaaaaaaaaaaaaaaaaaaaaaaaaaaaaaa",
        false, false, true, false, false, false, "t", "u"⟩
      ⟨[], [], [], 0, 0⟩
      ⟨"0xaaaaaaaaaaaaaaaaaaaaaaaaaaaaaaaaaaaaaaaa", "0xsig", SIGN_MESSAGE⟩ =
      (.err 500 "Failed to create user account", ⟨[], [], [], 0, 0⟩) :=
  c2_losing_creation_errors_request _ _ _ _
    ⟨by decide, by decide, by decide⟩ rfl rfl (by decide) rfl (by decide) rfl

/-- Claim C10: during provisioning of a brand-new address, a failing
role lookup or role insert does not fail the request: `verify` still
answers 200 success, and no `user_roles` row is written — so a
successful response does not guarantee the student role row exists. -/
theorem c10_role_failure_not_fatal (env : Env) (db : DB)
    (req : VerifyRequest) (r : String)
    (hwf : wellFormed req) (hmsg : req.message = SIGN_MESSAGE)
    (hrec : env.recover req.message req.signature = some r)
    (hmat : toLowerCase r = toLowerCase req.wallet_address)
    (hpl : env.profileLookupFails = false)
    (hnop : findProfile db (toLowerCase req.wallet_address) = none)
    (hcu : env.createUserFails = false)
    (hrole : env.roleLookupFails = true ∨ env.roleInsertFails = true)
    (hlg : env.linkGenFails = false) :
    (verify env db req).1.isSuccess = true ∧
    (verify env db req).2.user_roles = db.user_roles := by
  constructor
  · unfold verify
    rw [if_neg (wellFormed_not_400 req hwf), if_pos hmsg, hrec]
    simp [hmat, resolveIdentity, hpl, hnop, provision, hcu, hlg,
      VerifyResult.isSuccess]
  · unfold verify
    rw [if_neg (wellFormed_not_400 req hwf), if_pos hmsg, hrec]
    simp [hmat, resolveIdentity, hpl, hnop, provision, hcu, hlg,
      ensureRoleDB_user_roles_of_fail _ _ _ hrole,
      linkOrInsertProfileDB_user_roles, createUserDB]

/-- Witness for C10: empty database, valid address, matching recovery,
role lookup failing: `verify` answers success and writes no role row. -/
theorem c10_role_failure_not_fatal_witness :
    (verify
      ⟨fun _ _ => some "0xaaaaaaaaaaaaaaaaaaaaaaaaaaaaaaaaaaaaaaaa",
        false, false, false, true, false, false, "t", "u"⟩
      ⟨[], [], [], 0, 0⟩
      ⟨"0xaaaaaaaaaaaaaaaaaaaaaaaaaaaaaaaaaaaaaaaa", "0xsig",
        SIGN_MESSAGE⟩).1.isSuccess = true ∧
    (verify
      ⟨fun _ _ => some "0xaaaaaaaaaaaaaaaaaaaaaaaaaaaaaaaaaaaaaaaa",
        false, false, false, true, false, false, "t", "u"⟩
      ⟨[], [], [], 0, 0⟩
      ⟨"0xaaaaaaaaaaaaaaaaaaaaaaaaaaaaaaaaaaaaaaaa", "0xsig",
        SIGN_MESSAGE⟩).2.user_roles = [] :=
  c10_role_failure_not_fatal _ _ _ _
    ⟨by decide, by decide, by decide⟩ rfl rfl (by decide) rfl (by decide) rfl
    (Or.inl rfl) rfl

/-- Database well-formedness used by the success claims: every linked
profile points at an existing auth user (`getUserById` cannot miss). -/
def dbLinked (db : DB) : Bool :=
  db.profiles.all (fun p =>
    match p.user_id with
    | some uid => db.users.any (fun u => u.id == uid)
    | none => true)

/-- Helper: with the storage and provider calls succeeding and a linked
database, identity resolution always returns an identity. -/
theorem resolveIdentity_ok (env : Env) (db : DB) (a : String)
    (hpl : env.profileLookupFails = false) (hgu : env.getUserFails = false)
    (hcu : env.createUserFails = false) (hdb : dbLinked db = true) :
    ∃ uid em db2, resolveIdentity env db a = .ok (uid, em, db2) := by
  unfold resolveIdentity
  rw [if_neg (by rw [hpl]; decide)]
  cases hp : findProfile db a with
  | none =>
    refine ⟨db.nextUserId, deriveEmail a,
      ensureRoleDB env (linkOrInsertProfileDB (createUserDB db a (deriveEmail a))
        db.nextUserId a none) db.nextUserId, ?_⟩
    simp [provision, hcu]
  | some p =>
    cases hpu : p.user_id with
    | none =>
      refine ⟨db.nextUserId, deriveEmail a,
        ensureRoleDB env (linkOrInsertProfileDB (createUserDB db a (deriveEmail a))
          db.nextUserId a (some p)) db.nextUserId, ?_⟩
      simp [hpu, provision, hcu]
    | some uid =>
      simp only [dbLinked, List.all_eq_true] at hdb
      have hall := hdb p (List.mem_of_find?_eq_some hp)
      rw [hpu] at hall
      rcases List.any_eq_true.mp hall with ⟨u, hu_mem, hu_eq⟩
      cases hfu : findUser db uid with
      | none =>
        unfold findUser at hfu
        have := List.find?_eq_none.mp hfu u hu_mem
        simp_all
      | some u2 =>
        refine ⟨uid, u2.email.getD (deriveEmail a), db, ?_⟩
        simp [hpu, hgu, hfu]

/-- Claim C1: a well-formed submission of the fixed message whose
signature recovery yields the submitted address (compared lower-case)
succeeds, and the returned user object's `wallet_address` is the
submitted address normalized to lower-case; the storage and provider
collaborators are assumed to succeed and the database to be linked. -/
theorem c1_genuine_signature_succeeds (env : Env) (db : DB)
    (req : VerifyRequest) (r : String)
    (hwf : wellFormed req) (hmsg : req.message = SIGN_MESSAGE)
    (hrec : env.recover req.message req.signature = some r)
    (hmat : toLowerCase r = toLowerCase req.wallet_address)
    (hpl : env.profileLookupFails = false) (hgu : env.getUserFails = false)
    (hcu : env.createUserFails = false) (hlg : env.linkGenFails = false)
    (hdb : dbLinked db = true) :
    (verify env db req).1.isSuccess = true ∧
    (verify env db req).1.userWallet = some (toLowerCase req.wallet_address) := by
  obtain ⟨uid, em, db2, hok⟩ :=
    resolveIdentity_ok env db (toLowerCase req.wallet_address) hpl hgu hcu hdb
  unfold verify
  rw [if_neg (wellFormed_not_400 req hwf), if_pos hmsg, hrec]
  simp [hmat, hok, hlg, VerifyResult.isSuccess, VerifyResult.userWallet]

/-- Witness for C1: a mixed-case address whose signature recovers to the
same address; `verify` succeeds and returns the lower-cased address. -/
theorem c1_genuine_signature_succeeds_witness :
    (verify
      ⟨fun _ _ => some "0xAbCdEf0123456789aBcDeF0123456789AbCdEf01",
        false, false, false, false, false, false, "t", "u"⟩
      ⟨[], [], [], 0, 0⟩
      ⟨"0xAbCdEf0123456789aBcDeF0123456789AbCdEf01", "0xsig",
        SIGN_MESSAGE⟩).1.isSuccess = true ∧
    (verify
      ⟨fun _ _ => some "0xAbCdEf0123456789aBcDeF0123456789AbCdEf01",
        false, false, false, false, false, false, "t", "u"⟩
      ⟨[], [], [], 0, 0⟩
      ⟨"0xAbCdEf0123456789aBcDeF0123456789AbCdEf01", "0xsig",
        SIGN_MESSAGE⟩).1.userWallet =
      some (toLowerCase "0xAbCdEf0123456789aBcDeF0123456789AbCdEf01") :=
  c1_genuine_signature_succeeds _ _ _ _
    ⟨by decide, by decide, by decide⟩ rfl rfl rfl rfl rfl rfl rfl (by decide)

/-- Helper: every error answer produced inside identity resolution
carries HTTP status 500. -/
theorem resolveIdentity_error_500 (env : Env) (db : DB) (a : String)
    (s : Nat) (m : String)
    (h : resolveIdentity env db a = .error (s, m)) : s = 500 := by
  unfold resolveIdentity provision at h
  repeat' split at h
  all_goals simp_all

/-- Claim C9 (amended): every 400 or 401 answer of `verify` — the
format, message, and signature/recovery failure paths — carries the one
friendly error string. -/
theorem c9_friendly_on_all_4xx (env : Env) (db : DB) (req : VerifyRequest)
    (s : Nat) (m : String)
    (h : (verify env db req).1 = .err s m) (hs : s = 400 ∨ s = 401) :
    m = FRIENDLY_VERIFY_ERROR := by
  unfold verify at h
  repeat' split at h
  all_goals simp_all
  all_goals
    first
    | (rename_i heq
       have h500 := resolveIdentity_error_500 _ _ _ _ _ heq
       rcases hs with hs | hs <;> omega)
    | (obtain ⟨h1, _⟩ := h
       rcases hs with hs | hs <;> omega)

/-- Witness for C9 (amended): a concrete 401 answer (recovery error)
carries the friendly string. -/
theorem c9_friendly_on_all_4xx_witness :
    (verify
      ⟨fun _ _ => none, false, false, false, false, false, false, "t", "u"⟩
      ⟨[], [], [], 0, 0⟩
      ⟨"0xaaaaaaaaaaaaaaaaaaaaaaaaaaaaaaaaaaaaaaaa", "0xsig",
        SIGN_MESSAGE⟩).1 = .err 401 FRIENDLY_VERIFY_ERROR ∧
    (FRIENDLY_VERIFY_ERROR : String) = FRIENDLY_VERIFY_ERROR :=
  ⟨by decide,
   c9_friendly_on_all_4xx
    ⟨fun _ _ => none, false, false, false, false, false, false, "t", "u"⟩
    ⟨[], [], [], 0, 0⟩
    ⟨"0xaaaaaaaaaaaaaaaaaaaaaaaaaaaaaaaaaaaaaaaa", "0xsig", SIGN_MESSAGE⟩
    401 FRIENDLY_VERIFY_ERROR (by decide) (Or.inr rfl)⟩

/-- Counterexample for C9 as stated: with the profile lookup failing,
`verify` answers 500 with `Failed to verify wallet`, a different string
from the friendly one — the 500 paths do reveal which stage failed. -/
theorem c9_counterexample_500_path_differs :
    (verify
      ⟨fun _ _ => some "0xaaaaaaaaaaaaaaaaaaaaaaaaaaaaaaaaaaaaaaaa",
        true, false, false, false, false, false, "t", "u"⟩
      ⟨[], [], [], 0, 0⟩
      ⟨"0xaaaaaaaaaaaaaaaaaaaaaaaaaaaaaaaaaaaaaaaa", "0xsig",
        SIGN_MESSAGE⟩).1 = .err 500 "Failed to verify wallet" ∧
    "Failed to verify wallet" ≠ FRIENDLY_VERIFY_ERROR := by
  constructor
  · decide
  · decide

/-- Witness for C4: a well-formed request whose signature recovery
throws (models `ethers.verifyMessage` raising on a malformed signature)
is answered 401 with the friendly string. -/
theorem c4_recovery_mismatch_rejected_witness :
    verify ⟨fun _ _ => none, false, false, false, false, false, false, "t", "u"⟩
      ⟨[], [], [], 0, 0⟩
      ⟨"0xaaaaaaaaaaaaaaaaaaaaaaaaaaaaaaaaaaaaaaaa", "badsig", SIGN_MESSAGE⟩ =
      (.err 401 FRIENDLY_VERIFY_ERROR, ⟨[], [], [], 0, 0⟩) :=
  c4_recovery_mismatch_rejected _ _ _ ⟨by decide, by decide, by decide⟩ rfl
    (fun r hr => nomatch hr)

end WalletAuth

namespace AuthClient

open WalletAuth

/-- Claim C8 (amended): when the provider sign-out call completes
without throwing (including when it merely reports an error in its
return value, which the code ignores), all local identity, session,
profile, role and error state is cleared; when the provider call
throws, the catch only logs and the local state is left unchanged apart
from `isLoading` being reset. -/
theorem c8_signout_clears_unless_provider_throws (st : ClientState) :
    (signOut false st).user = none ∧ (signOut false st).session = false ∧
    (signOut false st).profile = none ∧ (signOut false st).roles = [] ∧
    (signOut false st).error = none ∧
    signOut true st = { st with isLoading := false } :=
  ⟨rfl, rfl, rfl, rfl, rfl, rfl⟩

/-- Counterexample for C8 as stated: a populated authenticated state on
which the provider sign-out call throws; after `signOut` the local user
and profile are still populated — the clearing is not unconditional. -/
theorem c8_counterexample_throw_keeps_state :
    (signOut true
      ⟨some 7, true, some ⟨1, "0xab", "student", none, none, true⟩,
        ["student"], false, none⟩).user = some 7 ∧
    (signOut true
      ⟨some 7, true, some ⟨1, "0xab", "student", none, none, true⟩,
        ["student"], false, none⟩).profile ≠ none := by
  constructor
  · rfl
  · decide

/-- Helper: updating `onboarded` twice is the same as updating once. -/
theorem updateOnboarded_idem (db : DB) (uid : Nat) :
    updateOnboarded (updateOnboarded db uid) uid = updateOnboarded db uid := by
  unfold updateOnboarded
  simp only [List.map_map]
  congr 1
  apply List.map_congr_left
  intro q _
  by_cases h : q.user_id = some uid <;> simp [h]

/-- Helper: after the server-side update, every profile row of the
current user is marked onboarded. -/
theorem updateOnboarded_sets (db : DB) (uid : Nat) :
    ∀ p ∈ (updateOnboarded db uid).profiles,
      p.user_id = some uid → p.onboarded = true := by
  intro p hp hpu
  unfold updateOnboarded at hp
  simp only [List.mem_map] at hp
  obtain ⟨q, _, rfl⟩ := hp
  by_cases h : q.user_id = some uid <;> simp_all

/-- Claim C7: `onboardingComplete` is idempotent: with an authenticated
user and the storage update succeeding, the first call succeeds and
leaves every profile row of the user (and the cached local profile)
onboarded, and the second call succeeds and changes nothing.  Without an
authenticated user it throws `No authenticated user`. -/
theorem c7_onboarding_complete_idempotent (st : ClientState) (db : DB)
    (uid : Nat) (h : st.user = some uid) :
    (∃ st2 db2,
      onboardingComplete false st db = .ok (st2, db2) ∧
      (∀ p ∈ db2.profiles, p.user_id = some uid → p.onboarded = true) ∧
      (∀ pr, st2.profile = some pr → pr.onboarded = true) ∧
      onboardingComplete false st2 db2 = .ok (st2, db2)) ∧
    (∀ b st0 db0, st0.user = none →
      onboardingComplete b st0 db0 = .error "No authenticated user") := by
  constructor
  · cases hpr : st.profile with
    | none =>
      refine ⟨st, updateOnboarded db uid, ?_, updateOnboarded_sets db uid, ?_, ?_⟩
      · unfold onboardingComplete
        rw [h]
        simp [hpr]
      · intro pr hpr2
        rw [hpr] at hpr2
        exact absurd hpr2 (by simp)
      · unfold onboardingComplete
        rw [h]
        simp [hpr, updateOnboarded_idem]
    | some pr =>
      refine ⟨{ st with profile := some { pr with onboarded := true } },
        updateOnboarded db uid, ?_, updateOnboarded_sets db uid, ?_, ?_⟩
      · unfold onboardingComplete
        rw [h]
        simp [hpr]
      · intro pr2 hpr2
        simp only [Option.some.injEq] at hpr2
        rw [← hpr2]
      · unfold onboardingComplete
        simp [h, updateOnboarded_idem]
  · intro b st0 db0 h0
    unfold onboardingComplete
    rw [h0]

/-- Witness for C7: an authenticated user with a cached profile and one
matching profile row; both calls succeed and the second is a no-op. -/
theorem c7_onboarding_complete_idempotent_witness :
    (∃ st2 db2,
      onboardingComplete false
        ⟨some 3, true, some ⟨1, "0xab", "student", none, none, false⟩,
          ["student"], false, none⟩
        ⟨[⟨1, some 3, "0xab", "student", false⟩], [], [], 2, 4⟩ =
        .ok (st2, db2) ∧
      (∀ p ∈ db2.profiles, p.user_id = some 3 → p.onboarded = true) ∧
      (∀ pr, st2.profile = some pr → pr.onboarded = true) ∧
      onboardingComplete false st2 db2 = .ok (st2, db2)) ∧
    (∀ b st0 db0, st0.user = none →
      onboardingComplete b st0 db0 = .error "No authenticated user") :=
  c7_onboarding_complete_idempotent
    ⟨some 3, true, some ⟨1, "0xab", "student", none, none, false⟩,
      ["student"], false, none⟩
    ⟨[⟨1, some 3, "0xab", "student", false⟩], [], [], 2, 4⟩ 3 rfl

end AuthClient

namespace WalletAuth

/-- Helper: after provisioning a brand-new address, the profile lookup
finds the freshly inserted row, linked to the new auth user. -/
theorem findProfile_provisioned_insert (env : Env) (db : DB) (a em : String)
    (hp : findProfile db a = none) :
    findProfile (ensureRoleDB env (linkOrInsertProfileDB (createUserDB db a em)
      db.nextUserId a none) db.nextUserId) a =
    some ⟨db.nextProfileId, some db.nextUserId, a, "student", false⟩ := by
  unfold findProfile
  rw [ensureRoleDB_profiles]
  simp only [linkOrInsertProfileDB, createUserDB]
  rw [List.find?_append]
  unfold findProfile at hp
  rw [hp]
  simp

/-- Helper: after provisioning over a pre-existing unlinked profile, the
profile lookup finds that row updated in place with the new `user_id`. -/
theorem findProfile_provisioned_link (env : Env) (db : DB) (a em : String)
    (p : Profile) (hp : findProfile db a = some p) :
    findProfile (ensureRoleDB env (linkOrInsertProfileDB (createUserDB db a em)
      db.nextUserId a (some p)) db.nextUserId) a =
    some { p with user_id := some db.nextUserId } := by
  unfold findProfile
  rw [ensureRoleDB_profiles]
  simp only [linkOrInsertProfileDB, createUserDB]
  rw [List.find?_map]
  have hcomp : ((fun q : Profile => q.wallet_address == a) ∘
      (fun q => if q.id = p.id then { q with user_id := some db.nextUserId } else q)) =
      (fun q : Profile => q.wallet_address == a) := by
    funext q
    by_cases hq : q.id = p.id <;> simp [hq]
  rw [hcomp]
  unfold findProfile at hp
  rw [hp]
  simp

/-- Helper: after provisioning, `getUserById` on the new id finds the
freshly created auth user, provided the id was fresh. -/
theorem findUser_provisioned (env : Env) (db : DB) (a em : String)
    (ep : Option Profile)
    (hfresh : ∀ u ∈ db.users, u.id ≠ db.nextUserId) :
    findUser (ensureRoleDB env (linkOrInsertProfileDB (createUserDB db a em)
      db.nextUserId a ep) db.nextUserId) db.nextUserId =
    some ⟨db.nextUserId, some em, a⟩ := by
  unfold findUser
  rw [ensureRoleDB_users, linkOrInsertProfileDB_users]
  simp only [createUserDB]
  rw [List.find?_append]
  have h1 : db.users.find? (fun v => v.id == db.nextUserId) = none :=
    List.find?_eq_none.mpr (fun v hv => by simp [hfresh v hv])
  rw [h1]
  simp

/-- Claim C5: identity resolution is idempotent.  If a resolution call
succeeds (returning identity `uid` with email `em` and leaving the
database in state `db2`), a second sequential call for the same address
returns the same identity id and email and leaves the database exactly
as it was: no additional profile row and no additional auth user is
created.  The auth-user id counter is assumed fresh, as the provider
guarantees. -/
theorem c5_resolution_idempotent (env : Env) (db db2 : DB) (a em : String)
    (uid : Nat)
    (hgu : env.getUserFails = false)
    (hfresh : ∀ u ∈ db.users, u.id ≠ db.nextUserId)
    (h1 : resolveIdentity env db a = .ok (uid, em, db2)) :
    resolveIdentity env db2 a = .ok (uid, em, db2) := by
  by_cases hpl : env.profileLookupFails = true
  · unfold resolveIdentity at h1
    rw [if_pos hpl] at h1
    simp at h1
  · unfold resolveIdentity at h1 ⊢
    rw [if_neg hpl] at h1 ⊢
    cases hp : findProfile db a with
    | some p =>
      rw [hp] at h1
      simp only [] at h1
      cases hpu : p.user_id with
      | some uid0 =>
        rw [hpu] at h1
        simp only [] at h1
        rw [if_neg (by rw [hgu]; decide)] at h1
        cases hfu : findUser db uid0 with
        | none =>
          rw [hfu] at h1
          simp at h1
        | some u =>
          rw [hfu] at h1
          simp only [Except.ok.injEq, Prod.mk.injEq] at h1
          obtain ⟨rfl, rfl, rfl⟩ := h1
          simp [hp, hpu, hgu, hfu]
      | none =>
        rw [hpu] at h1
        simp only [] at h1
        unfold provision at h1
        by_cases hcu : env.createUserFails = true
        · rw [if_pos hcu] at h1
          simp at h1
        · rw [if_neg hcu] at h1
          simp only [Except.ok.injEq, Prod.mk.injEq] at h1
          obtain ⟨rfl, rfl, rfl⟩ := h1
          rw [findProfile_provisioned_link env db a (deriveEmail a) p hp]
          simp [hgu, findUser_provisioned env db a (deriveEmail a) (some p) hfresh]
    | none =>
      rw [hp] at h1
      simp only [] at h1
      unfold provision at h1
      by_cases hcu : env.createUserFails = true
      · rw [if_pos hcu] at h1
        simp at h1
      · rw [if_neg hcu] at h1
        simp only [Except.ok.injEq, Prod.mk.injEq] at h1
        obtain ⟨rfl, rfl, rfl⟩ := h1
        rw [findProfile_provisioned_insert env db a (deriveEmail a) hp]
        simp [hgu, findUser_provisioned env db a (deriveEmail a) none hfresh]

/-- Witness for C5: resolving a brand-new address on an empty database
creates the identity; re-resolving on the resulting database returns the
same id and changes nothing. -/
theorem c5_resolution_idempotent_witness :
    resolveIdentity
      ⟨fun _ _ => none, false, false, false, false, false, false, "t", "u"⟩
      ⟨[⟨0, some 0, "0xab", "student", false⟩],
       [⟨0, some "0xab@wallet.eduverify.local", "0xab"⟩],
       [⟨0, "student"⟩], 1, 1⟩ "0xcd" =
      .ok (1, "0xcd@wallet.eduverify.local",
        ⟨[⟨0, some 0, "0xab", "student", false⟩,
          ⟨1, some 1, "0xcd", "student", false⟩],
         [⟨0, some "0xab@wallet.eduverify.local", "0xab"⟩,
          ⟨1, some "0xcd@wallet.eduverify.local", "0xcd"⟩],
         [⟨0, "student"⟩, ⟨1, "student"⟩], 2, 2⟩) ∧
    resolveIdentity
      ⟨fun _ _ => none, false, false, false, false, false, false, "t", "u"⟩
      ⟨[⟨0, some 0, "0xab", "student", false⟩,
        ⟨1, some 1, "0xcd", "student", false⟩],
       [⟨0, some "0xab@wallet.eduverify.local", "0xab"⟩,
        ⟨1, some "0xcd@wallet.eduverify.local", "0xcd"⟩],
       [⟨0, "student"⟩, ⟨1, "student"⟩], 2, 2⟩ "0xcd" =
      .ok (1, "0xcd@wallet.eduverify.local",
        ⟨[⟨0, some 0, "0xab", "student", false⟩,
          ⟨1, some 1, "0xcd", "student", false⟩],
         [⟨0, some "0xab@wallet.eduverify.local", "0xab"⟩,
          ⟨1, some "0xcd@wallet.eduverify.local", "0xcd"⟩],
         [⟨0, "student"⟩, ⟨1, "student"⟩], 2, 2⟩) := by
  refine ⟨by decide, ?_⟩
  exact c5_resolution_idempotent
    ⟨fun _ _ => none, false, false, false, false, false, false, "t", "u"⟩
    ⟨[⟨0, some 0, "0xab", "student", false⟩],
     [⟨0, some "0xab@wallet.eduverify.local", "0xab"⟩],
     [⟨0, "student"⟩], 1, 1⟩
    ⟨[⟨0, some 0, "0xab", "student", false⟩,
      ⟨1, some 1, "0xcd", "student", false⟩],
     [⟨0, some "0xab@wallet.eduverify.local", "0xab"⟩,
      ⟨1, some "0xcd@wallet.eduverify.local", "0xcd"⟩],
     [⟨0, "student"⟩, ⟨1, "student"⟩], 2, 2⟩
    "0xcd" "0xcd@wallet.eduverify.local" 1 rfl (by decide) (by decide)

end WalletAuth
